import Mathlib

/-!
Shallow embedding of the NutriTrack calorie-tracker core
(the single React component in the repository source).

Numbers held in JavaScript variables are modelled as rationals (ℚ);
`Math.round` is Mathlib's `round` (both compute ⌊x + 1/2⌋ on these inputs).
Integer-valued results (`Math.round` outputs) are ℤ.
-/

namespace NutriTrack

/-- `gender: "male" | "female"` from the `User` type. -/
inductive Gender where
  | male
  | female
deriving DecidableEq, Repr

/-- `activityLevel` enum from the `User` type. -/
inductive ActivityLevel where
  | sedentary
  | light
  | moderate
  | active
  | veryActive
deriving DecidableEq, Repr

/-- `goal: "lose" | "maintain" | "gain"` from the `User` type. -/
inductive Goal where
  | lose
  | maintain
  | gain
deriving DecidableEq, Repr

/-- The `User` record (profile). -/
structure User where
  name : String
  age : ℚ
  gender : Gender
  weight : ℚ
  height : ℚ
  activityLevel : ActivityLevel
  goal : Goal
deriving DecidableEq, Repr

/-- The `Food` record (one food-log entry). -/
structure Food where
  id : String
  name : String
  calories : ℚ
  protein : ℚ
  carbs : ℚ
  fat : ℚ
  date : String
deriving DecidableEq, Repr

/-- The `dailySummary` state shape: sums of the four nutrient fields. -/
structure DailySummary where
  calories : ℚ
  protein : ℚ
  carbs : ℚ
  fat : ℚ
deriving DecidableEq, Repr

/-- The `nutritionGoals` state shape. Fields are JS numbers, hence ℚ. -/
structure NutritionGoals where
  calories : ℚ
  protein : ℚ
  carbs : ℚ
  fat : ℚ
deriving DecidableEq, Repr

/-- `calculateBMR` (source lines 95-101): Mifflin-St Jeor equation,
`Math.round(10*weight + 6.25*height - 5*age - 161)` for female,
`... + 5` otherwise. -/
def calculateBMR (user : User) : ℤ :=
  if user.gender = Gender.female then
    round (10 * user.weight + 6.25 * user.height - 5 * user.age - 161)
  else
    round (10 * user.weight + 6.25 * user.height - 5 * user.age + 5)

/-- The `activityMultipliers` record from `calculateTDEE` (lines 106-112). -/
def activityMultipliers : ActivityLevel → ℚ
  | ActivityLevel.sedentary => 1.2
  | ActivityLevel.light => 1.375
  | ActivityLevel.moderate => 1.55
  | ActivityLevel.active => 1.725
  | ActivityLevel.veryActive => 1.9

/-- `calculateTDEE` (lines 104-114):
`Math.round(bmr * activityMultipliers[user.activityLevel])`. -/
def calculateTDEE (user : User) : ℤ :=
  round ((calculateBMR user : ℚ) * activityMultipliers user.activityLevel)

/-- The `goalAdjustments` record from `calculateCalorieGoal` (lines 119-123). -/
def goalAdjustments (tdee : ℤ) : Goal → ℤ
  | Goal.lose => tdee - 500
  | Goal.maintain => tdee
  | Goal.gain => tdee + 500

/-- `calculateCalorieGoal` (lines 117-125). -/
def calculateCalorieGoal (user : User) : ℤ :=
  goalAdjustments (calculateTDEE user) user.goal

/-- The nutrition-goals effect body (source lines 128-149): computes
`{calories, protein, carbs, fat}` targets from the profile. -/
def calculateNutritionGoals (user : User) : NutritionGoals :=
  let calorieGoal : ℚ := (calculateCalorieGoal user : ℚ)
  let proteinPerKg : ℚ :=
    if user.goal = Goal.gain then 2.2 else if user.goal = Goal.lose then 2.0 else 1.6
  let proteinGoal : ℤ := round (user.weight * proteinPerKg)
  let proteinCalories : ℚ := (proteinGoal : ℚ) * 4
  let fatRatio : ℚ := 0.25
  let fatCalories : ℚ := calorieGoal * fatRatio
  let fatGoal : ℤ := round (fatCalories / 9)
  let remainingCalories : ℚ := calorieGoal - proteinCalories - fatCalories
  let carbGoal : ℤ := round (remainingCalories / 4)
  ⟨calorieGoal, (proteinGoal : ℚ), (carbGoal : ℚ), (fatGoal : ℚ)⟩

/-- The profile used in the spec examples and as the stored default
(lines 33-41): female, age 30, weight 70 kg, height 170 cm. -/
def defaultUser : User :=
  ⟨"User", 30, Gender.female, 70, 170, ActivityLevel.moderate, Goal.maintain⟩

/-! ## Daily aggregator -/

/-- One step of the `reduce` in the daily-summary effect (lines 153-161). -/
def summaryStep (total : DailySummary) (food : Food) : DailySummary :=
  ⟨total.calories + food.calories, total.protein + food.protein,
   total.carbs + food.carbs, total.fat + food.fat⟩

/-- The daily summary computation: the date filter
`allFoods.filter(food => food.date === currentDate)` (line 56) followed by
the four-field `reduce` with all-zero initial accumulator (lines 152-164). -/
def summarize (entries : List Food) (date : String) : DailySummary :=
  (entries.filter fun food => food.date == date).foldl summaryStep ⟨0, 0, 0, 0⟩

/-! ## Advisory engine -/

/-- Advice string, line 246. -/
def overMsg : String :=
  "You\x27re over your calorie goal. Consider lighter meals for the rest of the day."

/-- Advice string, line 248. -/
def underMsg : String :=
  "You\x27re significantly under your calorie goal. Make sure you\x27re eating enough."

/-- Advice string, line 252. -/
def proteinMsg : String :=
  "Try to include more protein-rich foods in your next meals."

/-- Advice string, line 256. -/
def fatMsg : String :=
  "You\x27ve reached your fat intake for today. Focus on lean proteins and complex carbs."

/-- Advice string, line 259. -/
def affirmMsg : String :=
  "You\x27re on track with your nutrition goals today!"

/-- `generateAdvice` (lines 242-260), with
`remainingCalories = nutritionGoals.calories - dailySummary.calories`
(line 233) inlined as its defining expression. -/
def generateAdvice (summary : DailySummary) (goals : NutritionGoals) : List String :=
  let remainingCalories : ℚ := goals.calories - summary.calories
  let advice : List String :=
    if remainingCalories < -200 then [overMsg]
    else if remainingCalories > goals.calories * 0.5 then [underMsg]
    else []
  let advice : List String :=
    if summary.protein < goals.protein * 0.6 ∧ summary.calories > goals.calories * 0.5 then
      advice ++ [proteinMsg]
    else advice
  let advice : List String :=
    if summary.fat > goals.fat then advice ++ [fatMsg] else advice
  if advice.length > 0 then advice else [affirmMsg]

/-! ## Percentage displays

JavaScript numbers admit division by zero, producing Infinity, -Infinity or
NaN, so the computations that can divide by a zero goal are modelled over an
explicit IEEE-style value type. -/

/-- A JavaScript number that may be non-finite. -/
inductive JSNum where
  | nan
  | posInf
  | negInf
  | fin (q : ℚ)
deriving DecidableEq, Repr

/-- JS division of two finite numbers: `x / 0` is Infinity for positive `x`,
-Infinity for negative `x` and NaN for `x = 0`. -/
def jsDiv (x y : ℚ) : JSNum :=
  if y ≠ 0 then JSNum.fin (x / y)
  else if 0 < x then JSNum.posInf
  else if x < 0 then JSNum.negInf
  else JSNum.nan

/-- JS multiplication of a possibly non-finite number by a finite one. -/
def jsMul (n : JSNum) (k : ℚ) : JSNum :=
  match n with
  | JSNum.fin q => JSNum.fin (q * k)
  | JSNum.nan => JSNum.nan
  | JSNum.posInf => if 0 < k then JSNum.posInf else if k < 0 then JSNum.negInf else JSNum.nan
  | JSNum.negInf => if 0 < k then JSNum.negInf else if k < 0 then JSNum.posInf else JSNum.nan

/-- `Math.min` with a finite first argument: NaN-propagating. -/
def jsMin (a : ℚ) (n : JSNum) : JSNum :=
  match n with
  | JSNum.nan => JSNum.nan
  | JSNum.posInf => JSNum.fin a
  | JSNum.negInf => JSNum.negInf
  | JSNum.fin q => JSNum.fin (min a q)

/-- `caloriePercentage` (line 234):
`Math.min(100, (dailySummary.calories / nutritionGoals.calories) * 100)`. -/
def caloriePercentage (summary : DailySummary) (goals : NutritionGoals) : JSNum :=
  jsMin 100 (jsMul (jsDiv summary.calories goals.calories) 100)

/-- JS `x || 1` on a number: 1 when `x` is falsy (zero), else `x`. -/
def jsOrOne (x : ℚ) : ℚ := if x = 0 then 1 else x

/-- Protein share of the calorie goal, metrics tab (line 467):
`Math.round((dailySummary.protein * 4 / (nutritionGoals.calories || 1)) * 100)`. -/
def proteinPctOfCalories (summary : DailySummary) (goals : NutritionGoals) : ℤ :=
  round (summary.protein * 4 / jsOrOne goals.calories * 100)

/-- Carb share of the calorie goal, metrics tab (line 480). -/
def carbsPctOfCalories (summary : DailySummary) (goals : NutritionGoals) : ℤ :=
  round (summary.carbs * 4 / jsOrOne goals.calories * 100)

/-- Fat share of the calorie goal, metrics tab (line 493): fat uses 9
calories per gram. -/
def fatPctOfCalories (summary : DailySummary) (goals : NutritionGoals) : ℤ :=
  round (summary.fat * 9 / jsOrOne goals.calories * 100)

/-! ## Add-food handler -/

/-- The `activeTab` state (line 66). -/
inductive Tab where
  | home
  | add
  | metrics
  | settings
deriving DecidableEq, Repr

/-- The `newFood` form state, a `Partial<Food>` (lines 58-64): each numeric
field may be absent or NaN (both falsy, both replaced by `|| 0`), modelled
as `none`. -/
structure NewFood where
  name : String
  calories : Option ℚ
  protein : Option ℚ
  carbs : Option ℚ
  fat : Option ℚ
deriving DecidableEq, Repr

/-- JS truthiness of `newFood.calories`: present and nonzero
(undefined, NaN and 0 are falsy; any other number, negative included,
is truthy). -/
def numTruthy : Option ℚ → Bool
  | none => false
  | some c => c != 0

/-- JS `x || 0` on an optional number: 0 when absent/NaN/zero, else the
value. -/
def orZero : Option ℚ → ℚ
  | none => 0
  | some c => if c = 0 then 0 else c

/-- The component state that `handleAddFood` reads and writes. -/
structure AppState where
  allFoods : List Food
  newFood : NewFood
  currentDate : String
  activeTab : Tab
deriving DecidableEq, Repr

/-- `handleAddFood` (lines 194-217). The guard is JS truthiness of
`newFood.name && newFood.calories`; `newId` stands for the
`Date.now().toString()` identifier. On success the entry is appended to
`allFoods`, the form is reset, and the add tab switches to home. -/
def handleAddFood (newId : String) (s : AppState) : AppState :=
  if s.newFood.name != "" && numTruthy s.newFood.calories then
    let foodItem : Food :=
      ⟨newId, s.newFood.name, orZero s.newFood.calories, orZero s.newFood.protein,
       orZero s.newFood.carbs, orZero s.newFood.fat, s.currentDate⟩
    ⟨s.allFoods ++ [foodItem],
     ⟨"", some 0, some 0, some 0, some 0⟩,
     s.currentDate,
     if s.activeTab = Tab.add then Tab.home else s.activeTab⟩
  else s

/-! ## Date navigation

`changeDate` (lines 167-171) parses the `YYYY-MM-DD` string, runs
`date.setDate(date.getDate() + offset)` and reformats. `setDate` normalises
an out-of-range day-of-month through the calendar (month and year carry,
leap years included); on a valid calendar day an offset of `+1`/`-1` is
exactly the calendar successor/predecessor day. -/

/-- A calendar date as held in the `YYYY-MM-DD` state string. -/
structure CalDate where
  year : ℤ
  month : ℕ
  day : ℕ
deriving DecidableEq, Repr

/-- Gregorian leap-year rule, as implemented by JS `Date`. -/
def isLeapYear (y : ℤ) : Bool :=
  (y % 4 == 0 && y % 100 != 0) || y % 400 == 0

/-- Days in a month of a given year, as implemented by JS `Date`. -/
def daysInMonth (y : ℤ) : ℕ → ℕ
  | 1 => 31
  | 2 => if isLeapYear y then 29 else 28
  | 3 => 31
  | 4 => 30
  | 5 => 31
  | 6 => 30
  | 7 => 31
  | 8 => 31
  | 9 => 30
  | 10 => 31
  | 11 => 30
  | 12 => 31
  | _ => 0

/-- A `YYYY-MM-DD` string denotes a real calendar day. -/
def ValidDate (d : CalDate) : Prop :=
  1 ≤ d.month ∧ d.month ≤ 12 ∧ 1 ≤ d.day ∧ d.day ≤ daysInMonth d.year d.month

instance (d : CalDate) : Decidable (ValidDate d) := by
  unfold ValidDate; infer_instance

/-- `setDate(getDate() + 1)`: the calendar successor day. -/
def nextDay (d : CalDate) : CalDate :=
  if d.day < daysInMonth d.year d.month then ⟨d.year, d.month, d.day + 1⟩
  else if d.month < 12 then ⟨d.year, d.month + 1, 1⟩
  else ⟨d.year + 1, 1, 1⟩

/-- `setDate(getDate() - 1)`: the calendar predecessor day. -/
def prevDay (d : CalDate) : CalDate :=
  if 1 < d.day then ⟨d.year, d.month, d.day - 1⟩
  else if 1 < d.month then ⟨d.year, d.month - 1, daysInMonth d.year (d.month - 1)⟩
  else ⟨d.year - 1, 12, 31⟩

/-- `changeDate(offset)` as a date-to-date map: add `offset` calendar days
(iterated successor/predecessor, matching `setDate` normalisation). -/
def shiftDate (d : CalDate) (offset : ℤ) : CalDate :=
  if 0 ≤ offset then nextDay^[offset.toNat] d else prevDay^[(-offset).toNat] d

/-! ## Helper lemmas -/

lemma foldl_summaryStep (l : List Food) (init : DailySummary) :
    l.foldl summaryStep init =
      ⟨init.calories + (l.map Food.calories).sum,
       init.protein + (l.map Food.protein).sum,
       init.carbs + (l.map Food.carbs).sum,
       init.fat + (l.map Food.fat).sum⟩ := by
  induction l generalizing init with
  | nil => simp
  | cons f t ih =>
    simp only [List.foldl_cons, ih, List.map_cons, List.sum_cons, summaryStep,
      DailySummary.mk.injEq]
    exact ⟨by ring, by ring, by ring, by ring⟩

lemma summarize_eq_sums (entries : List Food) (date : String) :
    summarize entries date =
      ⟨(((entries.filter fun f => f.date == date).map Food.calories)).sum,
       (((entries.filter fun f => f.date == date).map Food.protein)).sum,
       (((entries.filter fun f => f.date == date).map Food.carbs)).sum,
       (((entries.filter fun f => f.date == date).map Food.fat)).sum⟩ := by
  simp [summarize, foldl_summaryStep]

lemma overMsg_ne_underMsg : overMsg ≠ underMsg := by decide

lemma overMsg_ne_proteinMsg : overMsg ≠ proteinMsg := by decide

lemma overMsg_ne_fatMsg : overMsg ≠ fatMsg := by decide

lemma overMsg_ne_affirmMsg : overMsg ≠ affirmMsg := by decide

lemma underMsg_ne_proteinMsg : underMsg ≠ proteinMsg := by decide

lemma underMsg_ne_fatMsg : underMsg ≠ fatMsg := by decide

lemma underMsg_ne_affirmMsg : underMsg ≠ affirmMsg := by decide

lemma proteinMsg_ne_fatMsg : proteinMsg ≠ fatMsg := by decide

lemma proteinMsg_ne_affirmMsg : proteinMsg ≠ affirmMsg := by decide

lemma fatMsg_ne_affirmMsg : fatMsg ≠ affirmMsg := by decide

/-! ## Claims -/

/-- C7: `calculateBMR` follows the Mifflin-St Jeor equation:
`round(10·weight + 6.25·height − 5·age − 161)` for a female profile and
`round(10·weight + 6.25·height − 5·age + 5)` otherwise. -/
theorem calculateBMR_mifflin (u : User) :
    calculateBMR u =
      match u.gender with
      | Gender.female => round (10 * u.weight + 6.25 * u.height - 5 * u.age - 161)
      | Gender.male => round (10 * u.weight + 6.25 * u.height - 5 * u.age + 5) := by
  rcases u with ⟨n, a, g, w, h, al, gl⟩
  cases g <;> simp [calculateBMR]

/-- C8: `calculateTDEE` is `round(BMR × multiplier)` with the five fixed
activity multipliers, and `calculateCalorieGoal` is TDEE − 500 / TDEE /
TDEE + 500 for the goals lose / maintain / gain. -/
theorem calculateTDEE_calorieGoal_spec (u : User) :
    activityMultipliers ActivityLevel.sedentary = 1.2
  ∧ activityMultipliers ActivityLevel.light = 1.375
  ∧ activityMultipliers ActivityLevel.moderate = 1.55
  ∧ activityMultipliers ActivityLevel.active = 1.725
  ∧ activityMultipliers ActivityLevel.veryActive = 1.9
  ∧ calculateTDEE u = round ((calculateBMR u : ℚ) * activityMultipliers u.activityLevel)
  ∧ calculateCalorieGoal u =
      (match u.goal with
       | Goal.lose => calculateTDEE u - 500
       | Goal.maintain => calculateTDEE u
       | Goal.gain => calculateTDEE u + 500) := by
  refine ⟨rfl, rfl, rfl, rfl, rfl, rfl, ?_⟩
  rcases u with ⟨n, a, g, w, h, al, gl⟩
  cases gl <;> simp [calculateCalorieGoal, goalAdjustments]

/-- C2 counterexample: on the profile with gender female, weight 70,
height 170 and age 30, `calculateBMR` does not return 1498 (the value the
spec asserts). -/
theorem calculateBMR_default_ne_1498 : calculateBMR defaultUser ≠ 1498 := by
  norm_num [calculateBMR, defaultUser, round_eq]

/-- C2 amended: on that profile `calculateBMR` returns 1452, which is the
value of `round(10*70 + 6.25*170 - 5*30 - 161)`; the spec's 1498 is a
miscalculation of its own expression (which evaluates to round(1451.5)). -/
theorem calculateBMR_default_eq_1452 :
    calculateBMR defaultUser = 1452
  ∧ round ((10 * 70 + 6.25 * 170 - 5 * 30 - 161 : ℚ)) = 1452 := by
  constructor <;> norm_num [calculateBMR, defaultUser, round_eq]

/-- C4: `calculateNutritionGoals` sets
protein = `round(weight × p)` with p = 2.2 (gain), 2.0 (lose), 1.6 (maintain);
fat = `round(0.25 × calorieGoal / 9)`; and
carbs = `round((calorieGoal − proteinGoal×4 − 0.25×calorieGoal) / 4)` with the
un-rounded fat-calorie term. -/
theorem calculateNutritionGoals_formulas (u : User) :
    (calculateNutritionGoals u).protein =
      ((round (u.weight * (match u.goal with
        | Goal.gain => (2.2 : ℚ)
        | Goal.lose => 2.0
        | Goal.maintain => 1.6)) : ℤ) : ℚ)
  ∧ (calculateNutritionGoals u).fat =
      ((round (0.25 * (calculateCalorieGoal u : ℚ) / 9) : ℤ) : ℚ)
  ∧ (calculateNutritionGoals u).carbs =
      ((round (((calculateCalorieGoal u : ℚ)
          - ((round (u.weight * (match u.goal with
              | Goal.gain => (2.2 : ℚ)
              | Goal.lose => 2.0
              | Goal.maintain => 1.6)) : ℤ) : ℚ) * 4
          - 0.25 * (calculateCalorieGoal u : ℚ)) / 4) : ℤ) : ℚ) := by
  rcases u with ⟨n, a, g, w, h, al, gl⟩
  cases gl <;>
    refine ⟨by simp [calculateNutritionGoals], ?_, ?_⟩ <;>
    simp only [calculateNutritionGoals, reduceCtorEq, reduceIte, if_true, if_false] <;>
    exact congrArg (fun z : ℤ => (z : ℚ)) (congrArg round (by ring))

/-- C9: `summarize` keeps exactly the entries whose date equals the selected
date (exact string equality) and sums the four numeric fields independently;
an empty match set (the empty log included) yields the all-zero summary. -/
theorem summarize_filter_sums (entries : List Food) (date : String) :
    summarize entries date =
      ⟨((entries.filter fun f => f.date == date).map Food.calories).sum,
       ((entries.filter fun f => f.date == date).map Food.protein).sum,
       ((entries.filter fun f => f.date == date).map Food.carbs).sum,
       ((entries.filter fun f => f.date == date).map Food.fat).sum⟩
  ∧ ((entries.filter fun f => f.date == date) = [] →
      summarize entries date = ⟨0, 0, 0, 0⟩) := by
  refine ⟨summarize_eq_sums entries date, fun h => ?_⟩
  rw [summarize_eq_sums, h]
  simp

/-- C9 witness: the empty log summarises to the all-zero summary. -/
theorem summarize_filter_sums_witness :
    summarize [] "2024-01-01" = ⟨0, 0, 0, 0⟩ :=
  (summarize_filter_sums [] "2024-01-01").2 rfl

/-- C10: `summarize` is invariant under permutation of the entry list. -/
theorem summarize_perm_invariant (l₁ l₂ : List Food) (date : String)
    (h : l₁.Perm l₂) : summarize l₁ date = summarize l₂ date := by
  rw [summarize_eq_sums, summarize_eq_sums]
  have hf := h.filter (fun f => f.date == date)
  rw [((hf.map Food.calories)).sum_eq, ((hf.map Food.protein)).sum_eq,
    ((hf.map Food.carbs)).sum_eq, ((hf.map Food.fat)).sum_eq]

set_option maxHeartbeats 2000000 in
/-- C5: `generateAdvice` evaluates the four threshold rules in the listed
order: the over-calorie and significantly-under warnings never both appear
(rule 2 is guarded by rule 1 not firing), the protein and fat rules fire
independently of the others, the output respects the listed rule order, and
the result is exactly the single affirmation message when no rule fires. -/
theorem generateAdvice_rules (s : DailySummary) (g : NutritionGoals) :
    ¬(overMsg ∈ generateAdvice s g ∧ underMsg ∈ generateAdvice s g)
  ∧ (overMsg ∈ generateAdvice s g ↔ g.calories - s.calories < -200)
  ∧ (underMsg ∈ generateAdvice s g ↔
      (¬(g.calories - s.calories < -200) ∧ g.calories - s.calories > g.calories * 0.5))
  ∧ (proteinMsg ∈ generateAdvice s g ↔
      (s.protein < g.protein * 0.6 ∧ s.calories > g.calories * 0.5))
  ∧ (fatMsg ∈ generateAdvice s g ↔ s.fat > g.fat)
  ∧ (generateAdvice s g = [affirmMsg] ↔
      (¬(g.calories - s.calories < -200)
        ∧ ¬(g.calories - s.calories > g.calories * 0.5)
        ∧ ¬(s.protein < g.protein * 0.6 ∧ s.calories > g.calories * 0.5)
        ∧ ¬(s.fat > g.fat)))
  ∧ (List.Sublist (generateAdvice s g) [overMsg, underMsg, proteinMsg, fatMsg]
      ∨ generateAdvice s g = [affirmMsg]) := by
  by_cases h1 : g.calories - s.calories < -200 <;>
  by_cases h2 : g.calories - s.calories > g.calories * 0.5 <;>
  by_cases h3 : s.protein < g.protein * 0.6 ∧ s.calories > g.calories * 0.5 <;>
  by_cases h4 : s.fat > g.fat <;>
  simp [generateAdvice, h1, h2, h3, h4, overMsg_ne_underMsg, overMsg_ne_proteinMsg,
    overMsg_ne_fatMsg, overMsg_ne_affirmMsg, underMsg_ne_proteinMsg,
    underMsg_ne_fatMsg, underMsg_ne_affirmMsg, proteinMsg_ne_fatMsg,
    proteinMsg_ne_affirmMsg, fatMsg_ne_affirmMsg,
    overMsg_ne_underMsg.symm, overMsg_ne_proteinMsg.symm, overMsg_ne_fatMsg.symm,
    overMsg_ne_affirmMsg.symm, underMsg_ne_proteinMsg.symm, underMsg_ne_fatMsg.symm,
    underMsg_ne_affirmMsg.symm, proteinMsg_ne_fatMsg.symm,
    proteinMsg_ne_affirmMsg.symm, fatMsg_ne_affirmMsg.symm]

/-- C5 witness: with an all-zero summary and all-zero goals no rule fires,
so the advice is the single affirmation message. -/
theorem generateAdvice_rules_witness :
    generateAdvice ⟨0, 0, 0, 0⟩ ⟨0, 0, 0, 0⟩ = [affirmMsg] :=
  ((generateAdvice_rules ⟨0, 0, 0, 0⟩ ⟨0, 0, 0, 0⟩).2.2.2.2.2.1).mpr (by norm_num)

/-- C3 counterexample: with a zero calorie goal the metrics-tab protein
percentage is 400 for one gram of protein (the `|| 1` fallback divides by 1,
it does not force the ratio to 0), and the calorie progress percentage is
100 for positive intake (Infinity clamped by `Math.min`), not 0. -/
theorem zeroGoal_pct_counterexample :
    proteinPctOfCalories ⟨0, 1, 0, 0⟩ ⟨0, 0, 0, 0⟩ = 400
  ∧ (400 : ℤ) ≠ 0
  ∧ caloriePercentage ⟨50, 0, 0, 0⟩ ⟨0, 0, 0, 0⟩ = JSNum.fin 100 := by
  refine ⟨?_, by norm_num, ?_⟩
  · norm_num [proteinPctOfCalories, jsOrOne, round_eq]
  · norm_num [caloriePercentage, jsDiv, jsMul, jsMin]

/-- C3 amended: when `goals.calories` is zero the macro-percentage-of-calories
figures divide by the substituted denominator 1, yielding
`round(macroGrams × kcalPerGram × 100)` rather than a forced 0, and the
calorie progress percentage is 100 for positive intake, NaN for zero intake
and -Infinity for negative intake — likewise never forced to 0. -/
theorem zeroGoal_pct_amended (s : DailySummary) (g : NutritionGoals)
    (hg : g.calories = 0) :
    proteinPctOfCalories s g = round (s.protein * 4 * 100)
  ∧ carbsPctOfCalories s g = round (s.carbs * 4 * 100)
  ∧ fatPctOfCalories s g = round (s.fat * 9 * 100)
  ∧ caloriePercentage s g =
      (if 0 < s.calories then JSNum.fin 100
       else if s.calories < 0 then JSNum.negInf else JSNum.nan) := by
  refine ⟨?_, ?_, ?_, ?_⟩
  · simp [proteinPctOfCalories, jsOrOne, hg]
  · simp [carbsPctOfCalories, jsOrOne, hg]
  · simp [fatPctOfCalories, jsOrOne, hg]
  · by_cases hpos : 0 < s.calories
    · simp [caloriePercentage, jsDiv, jsMul, jsMin, hg, hpos]
    · by_cases hneg : s.calories < 0
      · simp [caloriePercentage, jsDiv, jsMul, jsMin, hg, hpos, hneg]
      · simp [caloriePercentage, jsDiv, jsMul, jsMin, hg, hpos, hneg]

/-- C3 witness: the amended behaviour at a concrete zero-goal input. -/
theorem zeroGoal_pct_amended_witness :
    proteinPctOfCalories ⟨0, 1, 0, 0⟩ ⟨0, 0, 0, 0⟩ = round ((1 : ℚ) * 4 * 100)
  ∧ carbsPctOfCalories ⟨0, 1, 0, 0⟩ ⟨0, 0, 0, 0⟩ = round ((0 : ℚ) * 4 * 100)
  ∧ fatPctOfCalories ⟨0, 1, 0, 0⟩ ⟨0, 0, 0, 0⟩ = round ((0 : ℚ) * 9 * 100)
  ∧ caloriePercentage ⟨0, 1, 0, 0⟩ ⟨0, 0, 0, 0⟩ =
      (if (0 : ℚ) < 0 then JSNum.fin 100
       else if (0 : ℚ) < 0 then JSNum.negInf else JSNum.nan) :=
  zeroGoal_pct_amended ⟨0, 1, 0, 0⟩ ⟨0, 0, 0, 0⟩ rfl

/-- C1 counterexample: a request with name "Burger" and calories -5
(non-positive) is not rejected: `handleAddFood` appends an entry with
negative calories to the previously empty log. -/
theorem handleAddFood_negative_calories :
    (handleAddFood "1"
        ⟨[], ⟨"Burger", some (-5), some 0, some 0, some 0⟩, "2024-01-01", Tab.add⟩).allFoods
      = [⟨"1", "Burger", -5, 0, 0, 0, "2024-01-01"⟩]
  ∧ (⟨[], ⟨"Burger", some (-5), some 0, some 0, some 0⟩, "2024-01-01", Tab.add⟩
      : AppState).allFoods = [] := by
  refine ⟨?_, rfl⟩
  have ht : numTruthy (some (-5 : ℚ)) = true := by decide
  simp [handleAddFood, ht, orZero]

/-- C1 amended: an entry is created if and only if the name is non-empty and
the calories value is present and nonzero (JS truthiness): absent or zero
calories are silently rejected leaving the state unchanged, but negative
calories pass the guard and create an entry. -/
theorem handleAddFood_guard (newId : String) (s : AppState) :
    ((s.newFood.name ≠ "" ∧ ∃ c, s.newFood.calories = some c ∧ c ≠ 0) →
        (handleAddFood newId s).allFoods =
          s.allFoods ++ [⟨newId, s.newFood.name, orZero s.newFood.calories,
            orZero s.newFood.protein, orZero s.newFood.carbs, orZero s.newFood.fat,
            s.currentDate⟩])
  ∧ ((handleAddFood newId s).allFoods ≠ s.allFoods ↔
        (s.newFood.name ≠ "" ∧ ∃ c, s.newFood.calories = some c ∧ c ≠ 0))
  ∧ (¬(s.newFood.name ≠ "" ∧ ∃ c, s.newFood.calories = some c ∧ c ≠ 0) →
        handleAddFood newId s = s) := by
  have hguard : (s.newFood.name != "" && numTruthy s.newFood.calories) = true ↔
      (s.newFood.name ≠ "" ∧ ∃ c, s.newFood.calories = some c ∧ c ≠ 0) := by
    cases hc : s.newFood.calories <;> simp [numTruthy, hc]
  by_cases h : s.newFood.name ≠ "" ∧ ∃ c, s.newFood.calories = some c ∧ c ≠ 0
  · have hb : (s.newFood.name != "" && numTruthy s.newFood.calories) = true :=
      hguard.mpr h
    refine ⟨fun _ => ?_, ?_, fun hn => absurd h hn⟩
    · simp [handleAddFood, hb]
    · simp only [handleAddFood, hb, if_true]
      constructor
      · intro _; exact h
      · intro _ heq
        have := congrArg List.length heq
        simp at this
  · have hb : (s.newFood.name != "" && numTruthy s.newFood.calories) = false := by
      rcases Bool.eq_false_or_eq_true (s.newFood.name != "" && numTruthy s.newFood.calories)
        with hb | hb
      · exact absurd (hguard.mp hb) h
      · exact hb
    refine ⟨fun hc => absurd hc h, ?_, fun _ => ?_⟩
    · simp [handleAddFood, hb, h]
    · simp [handleAddFood, hb]

/-- C1 witness: an empty name is rejected and the state is unchanged. -/
theorem handleAddFood_guard_witness :
    handleAddFood "1" ⟨[], ⟨"", some 100, some 0, some 0, some 0⟩, "2024-01-01", Tab.home⟩
      = ⟨[], ⟨"", some 100, some 0, some 0, some 0⟩, "2024-01-01", Tab.home⟩ :=
  (handleAddFood_guard "1" _).2.2 (by simp)

lemma prevDay_nextDay (d : CalDate) (h : ValidDate d) : prevDay (nextDay d) = d := by
  rcases d with ⟨y, m, day⟩
  obtain ⟨h1, h2, h3, h4⟩ := h
  have H1 : 1 ≤ m := h1
  have H2 : m ≤ 12 := h2
  have H3 : 1 ≤ day := h3
  have H4 : day ≤ daysInMonth y m := h4
  by_cases hd : day < daysInMonth y m
  · have hn : nextDay ⟨y, m, day⟩ = ⟨y, m, day + 1⟩ := by simp [nextDay, hd]
    have hp : prevDay ⟨y, m, day + 1⟩ = ⟨y, m, day⟩ := by
      have hgt : 1 < day + 1 := by omega
      simp [prevDay, hgt]
    rw [hn, hp]
  · by_cases hm : m < 12
    · have hn : nextDay ⟨y, m, day⟩ = ⟨y, m + 1, 1⟩ := by simp [nextDay, hd, hm]
      have hday : day = daysInMonth y m := by omega
      have hp : prevDay ⟨y, m + 1, 1⟩ = ⟨y, m, daysInMonth y m⟩ := by
        have hgt : 1 < m + 1 := by omega
        simp [prevDay, hgt]
      rw [hn, hp, ← hday]
    · have hm12 : m = 12 := by omega
      subst hm12
      have hn : nextDay ⟨y, 12, day⟩ = ⟨y + 1, 1, 1⟩ := by simp [nextDay, hd]
      have hday : day = 31 := by
        have h31 : daysInMonth y 12 = 31 := rfl
        omega
      have hp : prevDay ⟨y + 1, 1, 1⟩ = ⟨y, 12, 31⟩ := by simp [prevDay]
      rw [hn, hp, hday]

/-- C6: shifting a valid calendar date forward one day and then back one
day returns the original date, across month and year boundaries. -/
theorem shiftDate_roundtrip (d : CalDate) (h : ValidDate d) :
    shiftDate (shiftDate d 1) (-1) = d := by
  have e1 : shiftDate d 1 = nextDay d := by
    simp [shiftDate]
  have e2 : shiftDate (nextDay d) (-1) = prevDay (nextDay d) := by
    simp [shiftDate]
  rw [e1, e2, prevDay_nextDay d h]

/-- C6 witness: the round-trip at the leap day 2024-02-29. -/
theorem shiftDate_roundtrip_witness :
    shiftDate (shiftDate ⟨2024, 2, 29⟩ 1) (-1) = ⟨2024, 2, 29⟩ :=
  shiftDate_roundtrip ⟨2024, 2, 29⟩ (by decide)

/-- C10 witness: swapping two concrete entries leaves the summary
unchanged. -/
theorem summarize_perm_invariant_witness :
    summarize [⟨"1", "Egg", 78, 6, 1, 5, "2024-01-01"⟩,
               ⟨"2", "Rice", 200, 4, 45, 0, "2024-01-01"⟩] "2024-01-01"
  = summarize [⟨"2", "Rice", 200, 4, 45, 0, "2024-01-01"⟩,
               ⟨"1", "Egg", 78, 6, 1, 5, "2024-01-01"⟩] "2024-01-01" :=
  summarize_perm_invariant _ _ _ (List.Perm.swap _ _ _)

end NutriTrack
